import Mathlib

/-!
Shallow embedding of the movement-and-collision core of the deeplight-game
repository (a 2D platformer physics engine written in TypeScript), together
with theorems settling the specification claims.

Numbers are modelled as rationals (`ℚ`): all arithmetic in the source is
exact addition, subtraction, multiplication and division by constants, so
the rational model matches the JavaScript float semantics on every input and
constant appearing in the claims and witnesses below.

Source files embedded:
- `src/systems/PhysicsSystem.ts`     (checkAABBCollision, resolveCollision,
                                      resolveTilemapCollision)
- `src/systems/PhysicsSystem.new.ts` (revised resolveCollision and the
                                      multi-pass resolveTilemapCollision)
- `src/components/PhysicsComponent`  (two revisions of applyGravity,
                                      updatePosition)
- `src/components/MovementComponent` (move, jump, updateCoyoteTime,
                                      setGrounded, canJump)
- `src/utils/math.utils.ts`          (applyFriction)
- `src/entities/Player.ts`           (two revisions of handleJumpInput)
- `src/utils/constants.ts`, `src/config.ts` (numeric constants)
-/

namespace DeepLight

/-- Source `Vector2` from the source: `{x, y}`. -/
structure Vec2 where
  x : ℚ
  y : ℚ
deriving DecidableEq, Repr

/-- Body size `{width, height}`. -/
structure Size where
  width : ℚ
  height : ℚ
deriving DecidableEq, Repr

/-- Source `Bounds` from `game.types`: top-left-origin rectangle `{x, y, width, height}`. -/
structure Bounds where
  x : ℚ
  y : ℚ
  width : ℚ
  height : ℚ
deriving DecidableEq, Repr

/-- Source `PhysicsBody` as used by `PhysicsSystem` and `PhysicsComponent`:
position is the rectangle's CENTER.  The `gravity` field is the
per-body gravity of `PhysicsComponent` (default `GameConfig.GRAVITY`). -/
structure PhysicsBody where
  position : Vec2
  velocity : Vec2
  size : Size
  grounded : Bool
  gravity : ℚ
deriving DecidableEq, Repr

/-- Collision side enum `'top' | 'bottom' | 'left' | 'right'`. -/
inductive Side where
  | top
  | bottom
  | left
  | right
deriving DecidableEq, Repr

/-- Source `CollisionResult` (the `side` field is `Option` because the source uses `null`). -/
structure CollisionResult where
  collided : Bool
  normal : Vec2
  overlap : ℚ
  side : Option Side
deriving DecidableEq, Repr

/-! ### Constants (`src/utils/constants.ts`, `src/config.ts`) -/

def TILE_SIZE : ℚ := 32

def PHYSICS_EPSILON : ℚ := 1 / 1000

/-- Source `GRAVITY` of `src/utils/constants.ts` (pixels per second squared),
used by `PhysicsSystem.new.ts`. -/
def GRAVITY_CONST : ℚ := 980

/-- Source `MAX_FALL_SPEED = 200` — its own comment says "Terminal velocity when
falling (negative)", yet the value is positive. -/
def MAX_FALL_SPEED : ℚ := 200

/-- Source `MAX_JUMP_SPEED = -200` — its own comment says "Maximum jump velocity
(positive)", yet the value is negative. -/
def MAX_JUMP_SPEED : ℚ := -200

namespace GameConfig

def GRAVITY : ℚ := 1200

def MAX_VELOCITY_Y : ℚ := 1000

def PLAYER_ACCELERATION : ℚ := 800

def PLAYER_MAX_SPEED : ℚ := 200

def PLAYER_FRICTION : ℚ := 800

def PLAYER_JUMP_VELOCITY : ℚ := -450

def PLAYER_COYOTE_TIME_MS : ℚ := 100

def PLAYER_JUMP_BUFFER_MS : ℚ := 100

end GameConfig

/-! ### `PhysicsSystem.checkAABBCollision` and `resolveCollision`

Both revisions (`PhysicsSystem.ts` and `PhysicsSystem.new.ts`) share the
same AABB test and the same overlap-selection chain; the revisions differ
only in the `overlapTop` branch (`velocity.y = Math.min(0, velocity.y)`
versus `velocity.y = 0`). -/

/-- Source `PhysicsSystem.checkAABBCollision(a, b)`:
`a.x < b.x + b.width && a.x + a.width > b.x && a.y < b.y + b.height && a.y + a.height > b.y`. -/
def checkAABBCollision (a b : Bounds) : Bool :=
  decide (a.x < b.x + b.width ∧ a.x + a.width > b.x ∧
          a.y < b.y + b.height ∧ a.y + a.height > b.y)

/-- The body's AABB: `{x: position.x - width/2, y: position.y - height/2, width, height}`. -/
def bodyBounds (body : PhysicsBody) : Bounds :=
  { x := body.position.x - body.size.width / 2
    y := body.position.y - body.size.height / 2
    width := body.size.width
    height := body.size.height }

/-- Source `overlapLeft = bodyBounds.x + bodyBounds.width - bounds.x`. -/
def overlapLeft (body : PhysicsBody) (bounds : Bounds) : ℚ :=
  (bodyBounds body).x + (bodyBounds body).width - bounds.x

/-- Source `overlapRight = bounds.x + bounds.width - bodyBounds.x`. -/
def overlapRight (body : PhysicsBody) (bounds : Bounds) : ℚ :=
  bounds.x + bounds.width - (bodyBounds body).x

/-- Source `overlapTop = bodyBounds.y + bodyBounds.height - bounds.y`. -/
def overlapTop (body : PhysicsBody) (bounds : Bounds) : ℚ :=
  (bodyBounds body).y + (bodyBounds body).height - bounds.y

/-- Source `overlapBottom = bounds.y + bounds.height - bodyBounds.y`. -/
def overlapBottom (body : PhysicsBody) (bounds : Bounds) : ℚ :=
  bounds.y + bounds.height - (bodyBounds body).y

/-- Source `minOverlap = Math.min(overlapLeft, overlapRight, overlapTop, overlapBottom)`. -/
def minOverlap (body : PhysicsBody) (bounds : Bounds) : ℚ :=
  min (min (overlapLeft body bounds) (overlapRight body bounds))
      (min (overlapTop body bounds) (overlapBottom body bounds))

/-- Source `PhysicsSystem.resolveCollision(body, bounds)` of `PhysicsSystem.ts`.
The TypeScript mutates `body`; the embedding returns the result together
with the updated body. -/
def resolveCollision (body : PhysicsBody) (bounds : Bounds) : CollisionResult × PhysicsBody :=
  if checkAABBCollision (bodyBounds body) bounds = false then
    (⟨false, ⟨0, 0⟩, 0, none⟩, body)
  else
    if minOverlap body bounds = overlapLeft body bounds then
      (⟨true, ⟨-1, 0⟩, minOverlap body bounds, some .right⟩,
       { body with
           position.x := body.position.x - (overlapLeft body bounds + PHYSICS_EPSILON)
           velocity.x := min 0 body.velocity.x })
    else if minOverlap body bounds = overlapRight body bounds then
      (⟨true, ⟨1, 0⟩, minOverlap body bounds, some .left⟩,
       { body with
           position.x := body.position.x + (overlapRight body bounds + PHYSICS_EPSILON)
           velocity.x := max 0 body.velocity.x })
    else if minOverlap body bounds = overlapTop body bounds then
      (⟨true, ⟨0, -1⟩, minOverlap body bounds, some .bottom⟩,
       { body with
           position.y := body.position.y - (overlapTop body bounds + PHYSICS_EPSILON)
           velocity.y := min 0 body.velocity.y
           grounded := true })
    else if minOverlap body bounds = overlapBottom body bounds then
      (⟨true, ⟨0, 1⟩, minOverlap body bounds, some .top⟩,
       { body with
           position.y := body.position.y + (overlapBottom body bounds + PHYSICS_EPSILON)
           velocity.y := max 0 body.velocity.y })
    else
      (⟨true, ⟨0, 0⟩, minOverlap body bounds, none⟩, body)

/-- Source `PhysicsSystem.resolveCollision` of `PhysicsSystem.new.ts`: identical
except that the `overlapTop` branch sets `velocity.y = 0`. -/
def resolveCollisionNew (body : PhysicsBody) (bounds : Bounds) : CollisionResult × PhysicsBody :=
  if checkAABBCollision (bodyBounds body) bounds = false then
    (⟨false, ⟨0, 0⟩, 0, none⟩, body)
  else
    if minOverlap body bounds = overlapLeft body bounds then
      (⟨true, ⟨-1, 0⟩, minOverlap body bounds, some .right⟩,
       { body with
           position.x := body.position.x - (overlapLeft body bounds + PHYSICS_EPSILON)
           velocity.x := min 0 body.velocity.x })
    else if minOverlap body bounds = overlapRight body bounds then
      (⟨true, ⟨1, 0⟩, minOverlap body bounds, some .left⟩,
       { body with
           position.x := body.position.x + (overlapRight body bounds + PHYSICS_EPSILON)
           velocity.x := max 0 body.velocity.x })
    else if minOverlap body bounds = overlapTop body bounds then
      (⟨true, ⟨0, -1⟩, minOverlap body bounds, some .bottom⟩,
       { body with
           position.y := body.position.y - (overlapTop body bounds + PHYSICS_EPSILON)
           velocity.y := 0
           grounded := true })
    else if minOverlap body bounds = overlapBottom body bounds then
      (⟨true, ⟨0, 1⟩, minOverlap body bounds, some .top⟩,
       { body with
           position.y := body.position.y + (overlapBottom body bounds + PHYSICS_EPSILON)
           velocity.y := max 0 body.velocity.y })
    else
      (⟨true, ⟨0, 0⟩, minOverlap body bounds, none⟩, body)

/-! ### `PhysicsComponent` (`src/components/PhysicsComponent.ts`, two revisions) -/

/-- First revision of `PhysicsComponent.applyGravity(delta)`:
`velocity.y += gravity * (delta/1000)`, then cap only the fall side at
`GameConfig.MAX_VELOCITY_Y`.  There is no `grounded` check. -/
def applyGravity (body : PhysicsBody) (delta : ℚ) : PhysicsBody :=
  { body with
      velocity.y :=
        if body.velocity.y + body.gravity * (delta / 1000) > GameConfig.MAX_VELOCITY_Y then
          GameConfig.MAX_VELOCITY_Y
        else
          body.velocity.y + body.gravity * (delta / 1000) }

/-- Second ("FIXED") revision of `PhysicsComponent.applyGravity(delta)`:
if not grounded, `velocity.y += gravity * (delta/1000)` followed by
`if (vy < MAX_FALL_SPEED) vy = MAX_FALL_SPEED else if (vy > MAX_JUMP_SPEED)
vy = MAX_JUMP_SPEED`; if grounded, `velocity.y = 0`. -/
def applyGravityFixed (body : PhysicsBody) (delta : ℚ) : PhysicsBody :=
  if body.grounded = false then
    { body with
        velocity.y :=
          if body.velocity.y + body.gravity * (delta / 1000) < MAX_FALL_SPEED then
            MAX_FALL_SPEED
          else if body.velocity.y + body.gravity * (delta / 1000) > MAX_JUMP_SPEED then
            MAX_JUMP_SPEED
          else
            body.velocity.y + body.gravity * (delta / 1000) }
  else
    { body with velocity.y := 0 }

/-- Source `PhysicsComponent.updatePosition(delta)` (identical in both revisions):
`position += velocity * (delta/1000)` on both axes, unconditionally. -/
def updatePosition (body : PhysicsBody) (delta : ℚ) : PhysicsBody :=
  { body with
      position.x := body.position.x + body.velocity.x * (delta / 1000)
      position.y := body.position.y + body.velocity.y * (delta / 1000) }

/-! ### `math.utils.ts` -/

/-- Source `Math.sign` (on rationals; `NaN` cannot arise). -/
def sign (v : ℚ) : ℚ :=
  if v > 0 then 1 else if v < 0 then -1 else 0

/-- Source `applyFriction(velocity, friction, delta)` from `math.utils.ts`:
```
if (velocity === 0) return 0;
const frictionAmount = friction * delta;
if (Math.abs(velocity) <= frictionAmount) return 0;
return velocity > 0 ? velocity - frictionAmount : velocity + frictionAmount;
``` -/
def applyFriction (velocity friction delta : ℚ) : ℚ :=
  if velocity = 0 then 0
  else if |velocity| ≤ friction * delta then 0
  else if velocity > 0 then velocity - friction * delta
  else velocity + friction * delta

/-! ### `MovementComponent` (`src/components/MovementComponent.ts`) -/

structure MovementComponent where
  velocity : Vec2
  acceleration : ℚ
  maxSpeed : ℚ
  friction : ℚ
  grounded : Bool
  coyoteTimeRemaining : ℚ
deriving DecidableEq, Repr

namespace MovementComponent

/-- Source `MovementComponent.move(direction, delta)`: if `direction !== 0`,
accelerate and clamp `|velocity.x|` to `maxSpeed` (via `Math.sign`);
otherwise apply `applyFriction` with `delta/1000` seconds. -/
def move (m : MovementComponent) (direction delta : ℚ) : MovementComponent :=
  if direction ≠ 0 then
    { m with
        velocity.x :=
          if |m.velocity.x + direction * m.acceleration * (delta / 1000)| > m.maxSpeed then
            sign (m.velocity.x + direction * m.acceleration * (delta / 1000)) * m.maxSpeed
          else
            m.velocity.x + direction * m.acceleration * (delta / 1000) }
  else
    { m with velocity.x := applyFriction m.velocity.x m.friction (delta / 1000) }

/-- Source `MovementComponent.jump(jumpVelocity)`: set `velocity.y`, clear
`grounded` and consume the coyote window. -/
def jump (m : MovementComponent) (jumpVelocity : ℚ) : MovementComponent :=
  { m with velocity.y := jumpVelocity, grounded := false, coyoteTimeRemaining := 0 }

/-- Source `MovementComponent.updateCoyoteTime(delta)`:
`if (!grounded && coyoteTimeRemaining > 0) coyoteTimeRemaining -= delta`. -/
def updateCoyoteTime (m : MovementComponent) (delta : ℚ) : MovementComponent :=
  if m.grounded = false ∧ m.coyoteTimeRemaining > 0 then
    { m with coyoteTimeRemaining := m.coyoteTimeRemaining - delta }
  else m

/-- Source `MovementComponent.setGrounded(grounded)`: a true→false transition
starts the coyote window; the flag is always stored. -/
def setGrounded (m : MovementComponent) (grounded : Bool) : MovementComponent :=
  let m :=
    if m.grounded = true ∧ grounded = false then
      { m with coyoteTimeRemaining := GameConfig.PLAYER_COYOTE_TIME_MS }
    else m
  { m with grounded := grounded }

/-- Source `MovementComponent.canJump()`: `grounded || coyoteTimeRemaining > 0`. -/
def canJump (m : MovementComponent) : Bool :=
  m.grounded || decide (m.coyoteTimeRemaining > 0)

end MovementComponent

/-! ### `Player.handleJumpInput` (`src/entities/Player.ts`, two revisions)

The state the jump logic reads and writes: the jump-buffer scalar, the
movement component, and the physics body's vertical velocity and grounded
flag.  `performJump` is `Player.performJump` (event-bus emission and
logging are presentation-only side effects with no state relevant here). -/

structure JumpState where
  jumpBufferTime : ℚ
  movement : MovementComponent
  physVelocityY : ℚ
  physGrounded : Bool
deriving DecidableEq, Repr

/-- Source `Player.performJump()`: `movement.jump(JUMP_VELOCITY)` and copy the
launch velocity into the physics body. -/
def performJump (s : JumpState) : JumpState :=
  { s with
      movement := s.movement.jump GameConfig.PLAYER_JUMP_VELOCITY
      physVelocityY := GameConfig.PLAYER_JUMP_VELOCITY }

/-- First revision of `Player.handleJumpInput(delta)`: a press always arms
the buffer; a jump executes whenever the buffer is positive and
`canJump()` holds, resetting the buffer; an early release while rising
(`velocity.y < 0`, up-negative convention) and airborne halves the
vertical velocity. -/
def handleJumpInput (s : JumpState) (justPressed justReleased : Bool) : JumpState :=
  let s1 := if justPressed then { s with jumpBufferTime := GameConfig.PLAYER_JUMP_BUFFER_MS } else s
  let s2 :=
    if s1.jumpBufferTime > 0 ∧ s1.movement.canJump = true then
      { performJump s1 with jumpBufferTime := 0 }
    else s1
  if justReleased = true ∧ s2.physVelocityY < 0 ∧ s2.physGrounded = false then
    { s2 with
        physVelocityY := s2.physVelocityY * (1 / 2)
        movement.velocity.y := s2.physVelocityY * (1 / 2) }
  else s2

/-- Second revision of `Player.handleJumpInput(delta)`: the press only arms
the buffer when `canJump()` already holds ("solo permitir el buffer si
podemos saltar"); the jump branch additionally clears both grounded flags;
the release cut tests `velocity.y > 0` (that revision's up-positive
convention). -/
def handleJumpInputV2 (s : JumpState) (justPressed justReleased : Bool) : JumpState :=
  let s1 :=
    if justPressed = true ∧ s.movement.canJump = true then
      { s with jumpBufferTime := GameConfig.PLAYER_JUMP_BUFFER_MS }
    else s
  let s2 :=
    if s1.jumpBufferTime > 0 ∧ s1.movement.canJump = true then
      { performJump s1 with
          jumpBufferTime := 0
          physGrounded := false
          movement.grounded := false }
    else s1
  if justReleased = true ∧ s2.physVelocityY > 0 ∧ s2.physGrounded = false then
    { s2 with
        physVelocityY := s2.physVelocityY * (1 / 2)
        movement.velocity.y := s2.physVelocityY * (1 / 2) }
  else s2

/-! ### Terrain collision pass (`PhysicsSystem.new.ts`, `resolveTilemapCollision`)

The Phaser tilemap layer is modelled as a read-only lookup from grid cell
to an optional tile with a `collides` flag and pixel coordinates. -/

/-- A Phaser tile as consumed by the pass: `tile.collides`, `tile.pixelX`,
`tile.pixelY`. -/
structure Tile where
  collides : Bool
  pixelX : ℚ
  pixelY : ℚ
deriving DecidableEq, Repr

/-- Source `layer.getTileAt(x, y)` as a function; out-of-range cells are `none`. -/
def Layer : Type := ℤ → ℤ → Option Tile

/-- The tile's bounds `{pixelX, pixelY, TILE_SIZE, TILE_SIZE}`. -/
def tileBounds (t : Tile) : Bounds :=
  { x := t.pixelX, y := t.pixelY, width := TILE_SIZE, height := TILE_SIZE }

/-- Integer interval `[a, b]` as a list, in increasing order (the iteration
order of `for (let i = a; i <= b; i++)`). -/
def intRange (a b : ℤ) : List ℤ :=
  (List.range (b + 1 - a).toNat).map (fun i => a + i)

/-- Step 1 of the pass: `body.velocity.y += GRAVITY * (1/60)`. -/
def tmVy (body : PhysicsBody) : ℚ :=
  body.velocity.y + GRAVITY_CONST * (1 / 60)

/-- Source `nextX = body.position.x + body.velocity.x * (1/60)`. -/
def tmNextX (body : PhysicsBody) : ℚ :=
  body.position.x + body.velocity.x * (1 / 60)

/-- Source `nextY = body.position.y + body.velocity.y * (1/60)` (with the
gravity-updated vertical velocity). -/
def tmNextY (body : PhysicsBody) : ℚ :=
  body.position.y + tmVy body * (1 / 60)

/-- Source `currentBounds`: floored top-left corner, ceiled size. -/
def tmCurrentBounds (body : PhysicsBody) : Bounds :=
  { x := (⌊body.position.x - body.size.width / 2⌋ : ℤ)
    y := (⌊body.position.y - body.size.height / 2⌋ : ℤ)
    width := (⌈body.size.width⌉ : ℤ)
    height := (⌈body.size.height⌉ : ℤ) }

/-- Source `nextBounds`: same, at the projected position. -/
def tmNextBounds (body : PhysicsBody) : Bounds :=
  { x := (⌊tmNextX body - body.size.width / 2⌋ : ℤ)
    y := (⌊tmNextY body - body.size.height / 2⌋ : ℤ)
    width := (⌈body.size.width⌉ : ℤ)
    height := (⌈body.size.height⌉ : ℤ) }

/-- Step 4: collect the solid tiles in the broad-phase range (row-major,
matching the nested `for` loops pushing into `collidingTiles`). -/
def tmTiles (body : PhysicsBody) (layer : Layer) : List Tile :=
  let cb := tmCurrentBounds body
  let nb := tmNextBounds body
  let startX := ⌊min cb.x nb.x / TILE_SIZE⌋ - 1
  let endX := ⌈max (cb.x + cb.width) (nb.x + nb.width) / TILE_SIZE⌉ + 1
  let startY := ⌊min cb.y nb.y / TILE_SIZE⌋ - 1
  let endY := ⌈max (cb.y + cb.height) (nb.y + nb.height) / TILE_SIZE⌉ + 1
  (intRange startY endY).flatMap fun y =>
    (intRange startX endX).filterMap fun x =>
      match layer x y with
      | some t => if t.collides then some t else none
      | none => none

/-- Source `verticalTestBounds = {...currentBounds, y: nextBounds.y}`. -/
def tmVerticalTestBounds (body : PhysicsBody) : Bounds :=
  { tmCurrentBounds body with y := (tmNextBounds body).y }

/-- Step 5's scan: the first candidate tile the vertically-projected bounds
overlap, provided the (gravity-updated) vertical velocity is nonzero — a
zero vertical velocity takes neither the falling nor the rising branch, so
no vertical collision is recorded. -/
def tmVerticalFind (body : PhysicsBody) (layer : Layer) : Option Tile :=
  if tmVy body = 0 then none
  else (tmTiles body layer).find? fun t =>
    checkAABBCollision (tmVerticalTestBounds body) (tileBounds t)

/-- Step 6's scan (grounded retention): the first candidate tile that
overlaps the bounds extended 4 pixels downward AND whose top edge is within
4 pixels of the body's bottom edge.  Uses the body's entry position, which
is unchanged when no vertical collision occurred. -/
def tmRetentionFind (body : PhysicsBody) (layer : Layer) : Option Tile :=
  let cb := tmCurrentBounds body
  let gcb := { cb with height := cb.height + 4 }
  (tmTiles body layer).find? fun t =>
    checkAABBCollision gcb (tileBounds t) &&
    decide (|body.position.y + body.size.height / 2 - (tileBounds t).y| ≤ 4)

/-- Step 5 of `resolveTilemapCollision` (`PhysicsSystem.new.ts`): apply
gravity to the vertical velocity, reset `grounded`, and resolve the first
vertical hit — landing when falling (`vy > 0`), hitting the ceiling when
rising.  Returns the body together with the `hasVerticalCollision` flag. -/
def tmStage1 (body : PhysicsBody) (layer : Layer) : PhysicsBody × Bool :=
  match tmVerticalFind body layer with
  | some t =>
    if tmVy body > 0 then
      ({ body with
           position.y := (tileBounds t).y - body.size.height / 2
           velocity.y := 0
           grounded := true }, true)
    else
      ({ body with
           position.y := (tileBounds t).y + TILE_SIZE + body.size.height / 2
           velocity.y := 0
           grounded := false }, true)
  | none => ({ body with velocity.y := tmVy body, grounded := false }, false)

/-- Step 6 (grounded retention): when no vertical collision was found and
the body entered the tick grounded, snap onto the first tile found by the
tolerance probe; otherwise pass the step-5 state through. -/
def tmStage2 (body : PhysicsBody) (layer : Layer) : PhysicsBody :=
  if (tmStage1 body layer).2 = false ∧ body.grounded = true then
    match tmRetentionFind body layer with
    | some t =>
      { (tmStage1 body layer).1 with
          position.y := (tileBounds t).y - body.size.height / 2
          velocity.y := 0
          grounded := true }
    | none => (tmStage1 body layer).1
  else (tmStage1 body layer).1

/-- Between steps 6 and 7: if the body is neither grounded nor vertically
blocked, integrate the vertical position to `nextY`. -/
def tmStage3 (body : PhysicsBody) (layer : Layer) : PhysicsBody :=
  if (tmStage2 body layer).grounded = false ∧ (tmStage1 body layer).2 = false then
    { tmStage2 body layer with position.y := tmNextY body }
  else tmStage2 body layer

/-- Step 7 (horizontal pass) applied to a state `b3`: test the bounds at
the projected x against the candidate tiles; on the first hit push out of
the tile according to the sign of the horizontal velocity and zero it;
otherwise integrate x to `nextX`. -/
def tmHorizontal (body : PhysicsBody) (layer : Layer) (b3 : PhysicsBody) : PhysicsBody :=
  match (tmTiles body layer).find? (fun t =>
      checkAABBCollision
        { x := tmNextX body - body.size.width / 2
          y := b3.position.y - body.size.height / 2
          width := body.size.width
          height := body.size.height } (tileBounds t)) with
  | some t =>
    if b3.velocity.x > 0 then
      { b3 with position.x := (tileBounds t).x - body.size.width / 2, velocity.x := 0 }
    else if b3.velocity.x < 0 then
      { b3 with position.x := (tileBounds t).x + TILE_SIZE + body.size.width / 2, velocity.x := 0 }
    else
      { b3 with velocity.x := 0 }
  | none => { b3 with position.x := tmNextX body }

/-- Source `PhysicsSystem.resolveTilemapCollision` of `PhysicsSystem.new.ts`:
gravity, projection, broad phase, vertical pass, grounded-retention check,
vertical integration when unsupported, then the horizontal pass. -/
def resolveTilemapCollisionNew (body : PhysicsBody) (layer : Layer) : PhysicsBody :=
  tmHorizontal body layer (tmStage3 body layer)

/-! ### Concrete inputs used by witnesses and counterexamples -/

/-- A 2×2 body centered at the origin, moving right and up. -/
def wBodyA : PhysicsBody := ⟨⟨0, 0⟩, ⟨5, -3⟩, ⟨2, 2⟩, false, 1200⟩

/-- A rectangle below `wBodyA` whose top-side penetration is the strict minimum. -/
def wRectTop : Bounds := ⟨-2, 1/2, 4, 4⟩

/-- A rectangle exactly touching `wBodyA` on its right edge (body right = rect left). -/
def wRectTouch : Bounds := ⟨1, -1, 2, 2⟩

/-- A rectangle to the right of `wBodyA` whose left-side penetration is the strict minimum. -/
def wRectLeftMin : Bounds := ⟨1/2, -2, 4, 4⟩

/-- A rectangle overlapping `wBodyA` with an exact tie between the left-side
and top-side penetrations (both 1). -/
def wRectTie : Bounds := ⟨0, 0, 4, 4⟩

/-- A 32×32 body standing exactly on the tile row below it, grounded. -/
def wBodyT : PhysicsBody := ⟨⟨16, 16⟩, ⟨0, 0⟩, ⟨32, 32⟩, true, 1200⟩

/-- A layer with a single solid tile at grid cell (0, 1), i.e. pixel (0, 32). -/
def wLayerT : Layer := fun x y => if x = 0 ∧ y = 1 then some ⟨true, 0, 32⟩ else none

/-- A grounded body at rest (first-revision gravity default 1200). -/
def wGroundedBody : PhysicsBody := ⟨⟨0, 0⟩, ⟨0, 0⟩, ⟨32, 48⟩, true, 1200⟩

/-- An airborne body at rest. -/
def wAirborneBody : PhysicsBody := ⟨⟨0, 0⟩, ⟨0, 0⟩, ⟨32, 48⟩, false, 1200⟩

/-- A movement state, airborne with 5 ms of coyote window left. -/
def wMoveCoyote : MovementComponent := ⟨⟨0, 0⟩, 800, 200, 800, false, 5⟩

/-- A movement state carrying horizontal speed 100, with the configured friction. -/
def wMoveFriction : MovementComponent := ⟨⟨100, 0⟩, 800, 200, 800, true, 0⟩

/-- Jump-logic state: airborne and falling (velocity 100 downward in the
first revision's convention), coyote expired, empty buffer. -/
def wJumpStart : JumpState := ⟨0, ⟨⟨0, 100⟩, 800, 200, 800, false, 0⟩, 100, false⟩

/-! ## Theorems for the claims

The rational operations of Batteries are sealed against unfolding, which
only hinders elaboration-time evaluation on the concrete witness inputs;
re-enabling unfolding locally lets `decide` evaluate the embedded
definitions (the kernel accepts such proofs unconditionally). -/

attribute [local semireducible] Rat.add Rat.mul Rat.sub Rat.inv

/-- C4: for every body and static rectangle whose bounds do not strictly
overlap — including exact edge contact — `resolveCollision` (both
revisions) returns `{collided: false, side: none}` and leaves every field
of the body unchanged. -/
theorem resolveCollision_no_overlap_is_noop (body : PhysicsBody) (bounds : Bounds)
    (h : checkAABBCollision (bodyBounds body) bounds = false) :
    (resolveCollision body bounds).1.collided = false ∧
    (resolveCollision body bounds).1.side = none ∧
    (resolveCollision body bounds).2 = body ∧
    (resolveCollisionNew body bounds).1.collided = false ∧
    (resolveCollisionNew body bounds).1.side = none ∧
    (resolveCollisionNew body bounds).2 = body := by
  unfold resolveCollision resolveCollisionNew
  simp [h]

/-- C4 witness: `wBodyA`'s right edge exactly equals `wRectTouch`'s left
edge (x = 1); this is not a collision and the body is untouched. -/
theorem resolveCollision_no_overlap_is_noop_witness :
    checkAABBCollision (bodyBounds wBodyA) wRectTouch = false ∧
    (resolveCollision wBodyA wRectTouch).1.collided = false ∧
    (resolveCollision wBodyA wRectTouch).2 = wBodyA :=
  have h : checkAABBCollision (bodyBounds wBodyA) wRectTouch = false := by decide
  have r := resolveCollision_no_overlap_is_noop wBodyA wRectTouch h
  ⟨h, r.1, r.2.2.1⟩

/-- C1: for every body whose bounds overlap a static rectangle such that
the top-side penetration is the strict minimum of the four penetrations,
`resolveCollision` (both revisions) returns `collided = true` with
`side = bottom` (bottom-of-body/top-of-rect contact), sets
`grounded = true`, pushes the body up by that penetration plus epsilon
(so its bottom comes to rest at the rectangle's top, offset by the
anti-re-trigger epsilon), and clamps vertical velocity to non-downward
(`min 0 vy ≤ 0` in the first revision, exactly `0` in the second;
downward is positive there). -/
theorem resolveCollision_top_min_lands (body : PhysicsBody) (bounds : Bounds)
    (hov : checkAABBCollision (bodyBounds body) bounds = true)
    (hL : overlapTop body bounds < overlapLeft body bounds)
    (hR : overlapTop body bounds < overlapRight body bounds)
    (hB : overlapTop body bounds < overlapBottom body bounds) :
    (resolveCollision body bounds).1.collided = true ∧
    (resolveCollision body bounds).1.side = some Side.bottom ∧
    (resolveCollision body bounds).2.grounded = true ∧
    (resolveCollision body bounds).2.position.y
      = body.position.y - (overlapTop body bounds + PHYSICS_EPSILON) ∧
    (resolveCollision body bounds).2.position.y + body.size.height / 2
      = bounds.y - PHYSICS_EPSILON ∧
    (resolveCollision body bounds).2.velocity.y ≤ 0 ∧
    (resolveCollisionNew body bounds).1.collided = true ∧
    (resolveCollisionNew body bounds).1.side = some Side.bottom ∧
    (resolveCollisionNew body bounds).2.grounded = true ∧
    (resolveCollisionNew body bounds).2.position.y
      = body.position.y - (overlapTop body bounds + PHYSICS_EPSILON) ∧
    (resolveCollisionNew body bounds).2.velocity.y = 0 := by
  have hne : ¬ checkAABBCollision (bodyBounds body) bounds = false := by simp [hov]
  have hm : minOverlap body bounds = overlapTop body bounds := by
    unfold minOverlap
    rw [min_eq_left hB.le]
    exact min_eq_right (le_min hL.le hR.le)
  have hmL : ¬ minOverlap body bounds = overlapLeft body bounds := by
    rw [hm]; exact hL.ne
  have hmR : ¬ minOverlap body bounds = overlapRight body bounds := by
    rw [hm]; exact hR.ne
  have hrest : (resolveCollision body bounds).2.position.y
      = body.position.y - (overlapTop body bounds + PHYSICS_EPSILON) := by
    unfold resolveCollision
    rw [if_neg hne, if_neg hmL, if_neg hmR, if_pos hm]
  refine ⟨?_, ?_, ?_, hrest, ?_, ?_, ?_, ?_, ?_, ?_, ?_⟩ <;>
    first
      | (unfold resolveCollision
         rw [if_neg hne, if_neg hmL, if_neg hmR, if_pos hm]
         done)
      | (unfold resolveCollision
         rw [if_neg hne, if_neg hmL, if_neg hmR, if_pos hm]
         exact min_le_left 0 body.velocity.y)
      | (unfold resolveCollisionNew
         rw [if_neg hne, if_neg hmL, if_neg hmR, if_pos hm]
         done)
      | (rw [hrest]
         unfold overlapTop bodyBounds
         ring)

/-- C1 witness: `wBodyA` (2×2 at the origin, falling is +y) overlapping
`wRectTop` below it; the top-side penetration 1/2 is the strict minimum,
and resolution lands the body with its bottom at the rectangle's top minus
epsilon, grounded, with non-downward vertical velocity. -/
theorem resolveCollision_top_min_lands_witness :
    (resolveCollision wBodyA wRectTop).1.side = some Side.bottom ∧
    (resolveCollision wBodyA wRectTop).2.grounded = true ∧
    (resolveCollision wBodyA wRectTop).2.position.y + wBodyA.size.height / 2
      = wRectTop.y - PHYSICS_EPSILON ∧
    (resolveCollisionNew wBodyA wRectTop).2.velocity.y = 0 :=
  have r := resolveCollision_top_min_lands wBodyA wRectTop
    (by decide) (by decide) (by decide) (by decide)
  ⟨r.2.1, r.2.2.1, r.2.2.2.2.1, r.2.2.2.2.2.2.2.2.2.2⟩

/-- C2: whenever `resolveCollision` (`PhysicsSystem.ts`) selects a
horizontal side as the minimum penetration, it zeroes the horizontal
velocity component directed into the wall (`min 0 vx` when resolving
leftwards, `max 0 vx` when resolving rightwards) and leaves the grounded
flag, the vertical position, and the vertical velocity exactly as they
were. -/
theorem resolveCollision_horizontal_preserves_vertical (body : PhysicsBody) (bounds : Bounds)
    (hov : checkAABBCollision (bodyBounds body) bounds = true)
    (hhor : minOverlap body bounds = overlapLeft body bounds ∨
            minOverlap body bounds = overlapRight body bounds) :
    (resolveCollision body bounds).1.collided = true ∧
    (resolveCollision body bounds).2.grounded = body.grounded ∧
    (resolveCollision body bounds).2.position.y = body.position.y ∧
    (resolveCollision body bounds).2.velocity.y = body.velocity.y ∧
    (minOverlap body bounds = overlapLeft body bounds →
      (resolveCollision body bounds).2.velocity.x = min 0 body.velocity.x) ∧
    (¬ minOverlap body bounds = overlapLeft body bounds →
      (resolveCollision body bounds).2.velocity.x = max 0 body.velocity.x) := by
  have hne : ¬ checkAABBCollision (bodyBounds body) bounds = false := by simp [hov]
  by_cases hL : minOverlap body bounds = overlapLeft body bounds
  · unfold resolveCollision
    rw [if_neg hne, if_pos hL]
    exact ⟨rfl, rfl, rfl, rfl, fun _ => rfl, fun h => absurd hL h⟩
  · have hRm : minOverlap body bounds = overlapRight body bounds := hhor.resolve_left hL
    unfold resolveCollision
    rw [if_neg hne, if_neg hL, if_pos hRm]
    exact ⟨rfl, rfl, rfl, rfl, fun h => absurd h hL, fun _ => rfl⟩

/-- C2 witness: `wBodyA` moving right (vx = 5) into `wRectLeftMin`, whose
left-side penetration 1/2 is the minimum: the rightward velocity is zeroed
(`min 0 5 = 0`) while grounded, vertical position and vertical velocity are
untouched. -/
theorem resolveCollision_horizontal_preserves_vertical_witness :
    (resolveCollision wBodyA wRectLeftMin).2.grounded = wBodyA.grounded ∧
    (resolveCollision wBodyA wRectLeftMin).2.position.y = wBodyA.position.y ∧
    (resolveCollision wBodyA wRectLeftMin).2.velocity.y = wBodyA.velocity.y ∧
    (resolveCollision wBodyA wRectLeftMin).2.velocity.x = 0 :=
  have r := resolveCollision_horizontal_preserves_vertical wBodyA wRectLeftMin
    (by decide) (Or.inl (by decide))
  ⟨r.2.1, r.2.2.1, r.2.2.2.1, by rw [r.2.2.2.2.1 (by decide)]; decide⟩

/-- C10: for every overlapping pair, `resolveCollision` resolves along the
first matching overlap in the fixed chain order
`overlapLeft, overlapRight, overlapTop, overlapBottom` — so an exact tie
between a horizontal and a vertical penetration is resolved horizontally
(the vertical position is untouched), never vertically — and the revised
`resolveCollision` of `PhysicsSystem.new.ts` selects the same side. -/
theorem resolveCollision_side_priority (body : PhysicsBody) (bounds : Bounds)
    (hov : checkAABBCollision (bodyBounds body) bounds = true) :
    (minOverlap body bounds = overlapLeft body bounds →
      (resolveCollision body bounds).1.side = some Side.right ∧
      (resolveCollision body bounds).2.position.y = body.position.y) ∧
    (¬ minOverlap body bounds = overlapLeft body bounds →
     minOverlap body bounds = overlapRight body bounds →
      (resolveCollision body bounds).1.side = some Side.left ∧
      (resolveCollision body bounds).2.position.y = body.position.y) ∧
    (¬ minOverlap body bounds = overlapLeft body bounds →
     ¬ minOverlap body bounds = overlapRight body bounds →
     minOverlap body bounds = overlapTop body bounds →
      (resolveCollision body bounds).1.side = some Side.bottom) ∧
    (¬ minOverlap body bounds = overlapLeft body bounds →
     ¬ minOverlap body bounds = overlapRight body bounds →
     ¬ minOverlap body bounds = overlapTop body bounds →
     minOverlap body bounds = overlapBottom body bounds →
      (resolveCollision body bounds).1.side = some Side.top) ∧
    (resolveCollisionNew body bounds).1.side = (resolveCollision body bounds).1.side := by
  have hne : ¬ checkAABBCollision (bodyBounds body) bounds = false := by simp [hov]
  unfold resolveCollision resolveCollisionNew
  rw [if_neg hne]
  refine ⟨?_, ?_, ?_, ?_, ?_⟩
  · intro h1; rw [if_pos h1]; exact ⟨rfl, rfl⟩
  · intro h1 h2; rw [if_neg h1, if_pos h2]; exact ⟨rfl, rfl⟩
  · intro h1 h2 h3; rw [if_neg h1, if_neg h2, if_pos h3]
  · intro h1 h2 h3 h4
    rw [if_neg h1, if_neg h2, if_neg h3, if_pos h4]
  · split_ifs <;> rfl

/-- C10 witness: `wBodyA` overlapping `wRectTie` with an exact tie
`overlapLeft = overlapTop = 1` (the minimum): the tie resolves
horizontally (`side = right`, vertical position untouched). -/
theorem resolveCollision_side_priority_witness :
    minOverlap wBodyA wRectTie = overlapLeft wBodyA wRectTie ∧
    minOverlap wBodyA wRectTie = overlapTop wBodyA wRectTie ∧
    (resolveCollision wBodyA wRectTie).1.side = some Side.right ∧
    (resolveCollision wBodyA wRectTie).2.position.y = wBodyA.position.y :=
  have r := resolveCollision_side_priority wBodyA wRectTie (by decide)
  ⟨by decide, by decide, (r.1 (by decide)).1, (r.1 (by decide)).2⟩

/-- C5 (code bug): the claim `applyGravity` zeroes vertical velocity while
grounded and otherwise clamps into the configured range fails on both
shipped revisions.  First revision: a grounded body at rest accumulates
gravity for a full second and ends with downward velocity 1000 (the cap),
not 0.  Fixed revision: an airborne body at rest gets velocity 6/5 after
gravity for 1 ms, but `MAX_FALL_SPEED = 200` (documented as a negative
falling cap) is used as a LOWER bound, so the velocity is slammed to 200
instead of staying 6/5 — the shipped constants make the two-sided clamp
degenerate, contradicting the constants' own doc comments. -/
theorem applyGravity_contradicts_claim :
    wGroundedBody.grounded = true ∧
    (applyGravity wGroundedBody 1000).velocity.y = 1000 ∧
    wAirborneBody.grounded = false ∧
    wAirborneBody.velocity.y + wAirborneBody.gravity * (1 / 1000) = 6 / 5 ∧
    (applyGravityFixed wAirborneBody 1).velocity.y = 200 := by
  refine ⟨rfl, by decide, rfl, by decide, by decide⟩

/-- C6 counterexample: `updateCoyoteTime` drives the remaining window
negative when the delta exceeds it — an airborne state with 5 ms left,
updated with a 10 ms delta, ends at -5 ms, violating the claimed
`coyoteTimeRemaining ≥ 0` invariant. -/
theorem updateCoyoteTime_goes_negative :
    wMoveCoyote.grounded = false ∧
    wMoveCoyote.coyoteTimeRemaining = 5 ∧
    (wMoveCoyote.updateCoyoteTime 10).coyoteTimeRemaining < 0 := by
  refine ⟨rfl, rfl, by decide⟩

/-- C6 amended: `updateCoyoteTime` decrements only while airborne with a
positive remaining window (it is the identity when grounded or when the
window is non-positive), and nonnegativity is preserved exactly when the
delta does not exceed the remaining window — there is no floor at zero. -/
theorem updateCoyoteTime_cases (m : MovementComponent) (delta : ℚ) :
    (m.grounded = true → m.updateCoyoteTime delta = m) ∧
    (m.coyoteTimeRemaining ≤ 0 → m.updateCoyoteTime delta = m) ∧
    (m.grounded = false → 0 < m.coyoteTimeRemaining →
      (m.updateCoyoteTime delta).coyoteTimeRemaining = m.coyoteTimeRemaining - delta) ∧
    (delta ≤ m.coyoteTimeRemaining → 0 ≤ m.coyoteTimeRemaining →
      0 ≤ (m.updateCoyoteTime delta).coyoteTimeRemaining) := by
  unfold MovementComponent.updateCoyoteTime
  split_ifs with h
  · refine ⟨fun hg => absurd hg (by simp [h.1]), fun hc => absurd h.2 (not_lt.mpr hc),
      fun _ _ => rfl, fun hd _ => ?_⟩
    simpa using sub_nonneg.mpr hd
  · refine ⟨fun _ => rfl, fun _ => rfl, fun hg hc => absurd ⟨hg, hc⟩ h, fun _ hc => hc⟩

/-- C6 amended witness: with 5 ms left and a 3 ms airborne delta the window
becomes 2 ms and stays nonnegative. -/
theorem updateCoyoteTime_cases_witness :
    (wMoveCoyote.updateCoyoteTime 3).coyoteTimeRemaining
      = wMoveCoyote.coyoteTimeRemaining - 3 ∧
    0 ≤ (wMoveCoyote.updateCoyoteTime 3).coyoteTimeRemaining :=
  ⟨(updateCoyoteTime_cases wMoveCoyote 3).2.2.1 rfl (by decide),
   (updateCoyoteTime_cases wMoveCoyote 3).2.2.2 (by decide) (by decide)⟩

/-- Helper: case analysis of `applyFriction` straight from its branches. -/
theorem applyFriction_cases (v f d : ℚ) :
    (v = 0 → applyFriction v f d = 0) ∧
    (v ≠ 0 → |v| ≤ f * d → applyFriction v f d = 0) ∧
    (v ≠ 0 → f * d < |v| → |applyFriction v f d| = |v| - f * d) ∧
    0 ≤ applyFriction v f d * v := by
  unfold applyFriction
  split_ifs with h1 h2 h3
  · exact ⟨fun _ => rfl, fun _ _ => rfl, fun hv _ => absurd h1 hv, by simp⟩
  · exact ⟨fun hv => absurd hv h1, fun _ _ => rfl, fun _ hlt => absurd h2 (not_le.mpr hlt),
      by simp⟩
  · have hfd : f * d < v := by rw [abs_of_pos h3] at h2; exact not_le.mp h2
    refine ⟨fun hv => absurd hv h1, fun _ hle => absurd hle h2, fun _ _ => ?_, ?_⟩
    · rw [abs_of_pos (by linarith : (0:ℚ) < v - f * d), abs_of_pos h3]
    · exact mul_nonneg (by linarith) h3.le
  · have hvneg : v < 0 := lt_of_le_of_ne (not_lt.mp h3) h1
    have hfd : f * d < -v := by rw [abs_of_neg hvneg] at h2; exact not_le.mp h2
    refine ⟨fun hv => absurd hv h1, fun _ hle => absurd hle h2, fun _ _ => ?_, ?_⟩
    · rw [abs_of_neg (by linarith : v + f * d < 0), abs_of_neg hvneg]; ring
    · nlinarith [hvneg.le, hfd]

/-- C7: `move` with `direction = 0` and positive delta applies friction:
a zero horizontal velocity stays zero; when the friction step
`friction * (delta/1000)` is at least `|velocity.x|` the result is exactly
zero; otherwise `|velocity.x|` decreases by exactly the friction step; and
the result never has the opposite sign of the input. -/
theorem move_zero_direction_friction (m : MovementComponent) (delta : ℚ)
    (hd : 0 < delta) :
    (m.velocity.x = 0 → (m.move 0 delta).velocity.x = 0) ∧
    (m.velocity.x ≠ 0 → |m.velocity.x| ≤ m.friction * (delta / 1000) →
      (m.move 0 delta).velocity.x = 0) ∧
    (m.velocity.x ≠ 0 → m.friction * (delta / 1000) < |m.velocity.x| →
      |(m.move 0 delta).velocity.x| = |m.velocity.x| - m.friction * (delta / 1000)) ∧
    0 ≤ (m.move 0 delta).velocity.x * m.velocity.x := by
  have hmv : (m.move 0 delta).velocity.x
      = applyFriction m.velocity.x m.friction (delta / 1000) := by
    unfold MovementComponent.move
    rw [if_neg (by simp)]
  rw [hmv]
  exact applyFriction_cases m.velocity.x m.friction (delta / 1000)

/-- C7 witness: velocity 100 with friction 800 over a 50 ms tick: the
friction step is 40, so the speed drops to exactly 60 with no sign flip. -/
theorem move_zero_direction_friction_witness :
    |(wMoveFriction.move 0 50).velocity.x|
      = |wMoveFriction.velocity.x| - wMoveFriction.friction * (50 / 1000) ∧
    0 ≤ (wMoveFriction.move 0 50).velocity.x * wMoveFriction.velocity.x :=
  have r := move_zero_direction_friction wMoveFriction 50 (by decide)
  ⟨r.2.2.1 (by decide) (by decide), r.2.2.2⟩

/-- C9 counterexample: `updatePosition` is NOT a no-op for negative elapsed
time — a body with horizontal velocity 100 and dt = -1000 ms is moved
backwards by 100 world units. -/
theorem updatePosition_negative_delta_moves :
    (updatePosition { wAirborneBody with velocity.x := 100 } (-1000)).position.x
      = wAirborneBody.position.x - 100 := by
  decide

/-- C9 amended: `updatePosition` always displaces the position by exactly
`velocity * (delta/1000)` on both axes; a zero delta therefore gives zero
displacement, but a negative delta integrates backwards instead of being
treated as a no-op (no crash or undefined value arises in either case). -/
theorem updatePosition_displacement (body : PhysicsBody) (delta : ℚ) :
    (updatePosition body delta).position.x
      = body.position.x + body.velocity.x * (delta / 1000) ∧
    (updatePosition body delta).position.y
      = body.position.y + body.velocity.y * (delta / 1000) ∧
    (updatePosition body 0).position = body.position := by
  refine ⟨rfl, rfl, ?_⟩
  unfold updatePosition
  simp

/-- Helper: the horizontal pass (step 7) never modifies the grounded flag,
the vertical position, or the vertical velocity of the state it receives. -/
theorem tmHorizontal_preserves_vertical_state (body : PhysicsBody) (layer : Layer)
    (b3 : PhysicsBody) :
    (tmHorizontal body layer b3).grounded = b3.grounded ∧
    (tmHorizontal body layer b3).position.y = b3.position.y ∧
    (tmHorizontal body layer b3).velocity.y = b3.velocity.y := by
  unfold tmHorizontal
  split
  · split_ifs <;> exact ⟨rfl, rfl, rfl⟩
  · exact ⟨rfl, rfl, rfl⟩

/-- C3: in the terrain pass of `PhysicsSystem.new.ts`, for a body that
entered the tick grounded and for which the vertical pass finds no
collision, if the tolerance probe (bounds extended 4 px downward, tile top
within 4 px of the body's bottom) finds a candidate tile, the pass snaps
the body's bottom onto that tile's top, zeroes vertical velocity and keeps
`grounded = true`; if the probe finds none, grounded ends the tick false. -/
theorem resolveTilemap_grounded_retention (body : PhysicsBody) (layer : Layer)
    (hg : body.grounded = true)
    (hv : tmVerticalFind body layer = none) :
    (∀ t, tmRetentionFind body layer = some t →
      (resolveTilemapCollisionNew body layer).grounded = true ∧
      (resolveTilemapCollisionNew body layer).position.y + body.size.height / 2 = t.pixelY ∧
      (resolveTilemapCollisionNew body layer).velocity.y = 0) ∧
    (tmRetentionFind body layer = none →
      (resolveTilemapCollisionNew body layer).grounded = false) := by
  have hs1 : tmStage1 body layer
      = ({ body with velocity.y := tmVy body, grounded := false }, false) := by
    unfold tmStage1; rw [hv]
  constructor
  · intro t ht
    have hs2 : tmStage2 body layer
        = { body with
              position.y := (tileBounds t).y - body.size.height / 2
              velocity.y := 0
              grounded := true } := by
      unfold tmStage2
      rw [hs1, ht, if_pos ⟨rfl, hg⟩]
    have hs3 : tmStage3 body layer = tmStage2 body layer := by
      unfold tmStage3
      rw [hs2]
      simp
    have hp := tmHorizontal_preserves_vertical_state body layer (tmStage3 body layer)
    unfold resolveTilemapCollisionNew
    rw [hp.1, hp.2.1, hp.2.2, hs3, hs2]
    refine ⟨rfl, ?_, rfl⟩
    show (tileBounds t).y - body.size.height / 2 + body.size.height / 2 = t.pixelY
    rw [tileBounds]
    ring
  · intro ht
    have hs2 : tmStage2 body layer
        = ({ body with velocity.y := tmVy body, grounded := false }) := by
      unfold tmStage2
      rw [hs1, ht, if_pos ⟨rfl, hg⟩]
    have hs3 : (tmStage3 body layer).grounded = false := by
      unfold tmStage3
      rw [hs1, hs2]
      simp
    have hp := tmHorizontal_preserves_vertical_state body layer (tmStage3 body layer)
    unfold resolveTilemapCollisionNew
    rw [hp.1, hs3]

/-- C3 witness: `wBodyT` (32×32, grounded, standing exactly on the tile at
pixel (0, 32) of `wLayerT`): after gravity the vertical pass misses
(projected bounds do not strictly overlap the tile), the tolerance probe
hits, and the tick ends with the bottom snapped to the tile top (y = 32),
zero vertical velocity and `grounded = true`. -/
theorem resolveTilemap_grounded_retention_witness :
    tmVerticalFind wBodyT wLayerT = none ∧
    tmRetentionFind wBodyT wLayerT = some ⟨true, 0, 32⟩ ∧
    (resolveTilemapCollisionNew wBodyT wLayerT).grounded = true ∧
    (resolveTilemapCollisionNew wBodyT wLayerT).position.y + wBodyT.size.height / 2 = 32 ∧
    (resolveTilemapCollisionNew wBodyT wLayerT).velocity.y = 0 :=
  have hv : tmVerticalFind wBodyT wLayerT = none := by decide
  have ht : tmRetentionFind wBodyT wLayerT = some ⟨true, 0, 32⟩ := by decide
  have r := (resolveTilemap_grounded_retention wBodyT wLayerT rfl hv).1 ⟨true, 0, 32⟩ ht
  ⟨hv, ht, r.1, r.2.1, r.2.2⟩

/-- C8 (code bug): starting airborne with the coyote window expired
(`canJump()` false) and an empty buffer, a jump press is DISCARDED by the
second revision of `handleJumpInput` (the buffer stays 0), so a later call
after landing performs no jump (vertical velocity stays 100); under the
first revision the same press arms the buffer with 100 ms, and the call
after landing (buffer decremented by one 16.67 ms frame) executes the jump,
setting the launch velocity -450.  The repository's own integration test
(`PlayerJump.test.ts`, "should execute jump if pressed before landing")
requires the first behavior. -/
theorem jump_buffer_dropped_on_ineligible_press :
    (handleJumpInputV2 wJumpStart true false).jumpBufferTime = 0 ∧
    (handleJumpInputV2
      { handleJumpInputV2 wJumpStart true false with
          physGrounded := true
          movement.grounded := true } false false).physVelocityY = 100 ∧
    (handleJumpInput wJumpStart true false).jumpBufferTime
      = GameConfig.PLAYER_JUMP_BUFFER_MS ∧
    (handleJumpInput
      { handleJumpInput wJumpStart true false with
          jumpBufferTime := (handleJumpInput wJumpStart true false).jumpBufferTime - 50 / 3
          physGrounded := true
          movement.grounded := true } false false).physVelocityY
      = GameConfig.PLAYER_JUMP_VELOCITY := by
  refine ⟨by decide, by decide, by decide, by decide⟩

end DeepLight
